import Mathlib

/-!
Shallow embedding of the TFTP worker (src/worker.rs): packet data model,
option negotiation (parse_options), the handshake helpers (accept_request,
check_response) and the send/receive retransmission loops (send_file,
receive_file), together with theorems settling the specification claims.

Network interaction is modelled by an oracle: a list of outcomes, one per
socket receive call, consumed in order. Outgoing traffic and file effects
are recorded as an event trace. Machine integers are Nat with explicit
mod 65536 where the source uses u16 wrapping arithmetic.
-/

/-- Modelled from the spec: the protocol error codes. The ErrorCode enum lives
in the packet codec module, which is not among the provided sources; the spec
lists these variants. -/
inductive ErrorCode
  | Undefined
  | FileNotFound
  | AccessViolation
  | DiskFull
  | IllegalOperation
  | UnknownTransferId
  | FileAlreadyExists
  | NoSuchUser
  | OptionNegotiationFailed
  deriving DecidableEq

/-- Modelled from the spec: the textual rendering of an ErrorCode used by the
format strings in the worker; the Display implementation lives in the packet
codec, outside the provided sources. Rendered as the variant name. -/
def ErrorCode.display : ErrorCode → String
  | ErrorCode.Undefined => "Undefined"
  | ErrorCode.FileNotFound => "FileNotFound"
  | ErrorCode.AccessViolation => "AccessViolation"
  | ErrorCode.DiskFull => "DiskFull"
  | ErrorCode.IllegalOperation => "IllegalOperation"
  | ErrorCode.UnknownTransferId => "UnknownTransferId"
  | ErrorCode.FileAlreadyExists => "FileAlreadyExists"
  | ErrorCode.NoSuchUser => "NoSuchUser"
  | ErrorCode.OptionNegotiationFailed => "OptionNegotiationFailed"

/-- The option kinds matched by parse_options in src/worker.rs. -/
inductive OptionType
  | BlockSize
  | TransferSize
  | Timeout
  deriving DecidableEq

/-- A requested transfer option: kind and non-negative value. -/
structure TransferOption where
  option : OptionType
  value : Nat
  deriving DecidableEq

/-- Wire packets consumed/produced by the worker (request variants are out of
scope, handled by the dispatcher). Payload bytes are Nat. -/
inductive Packet
  | Data (block_num : Nat) (data : List Nat)
  | Ack (block_num : Nat)
  | Error (code : ErrorCode) (msg : String)
  | OAck (options : List TransferOption)
  deriving DecidableEq

/-- WorkType from src/worker.rs: Receive, or Send carrying the local file
byte length. -/
inductive WorkType
  | Receive
  | Send (size : Nat)
  deriving DecidableEq

/-- WorkerOptions from src/worker.rs: the negotiated runtime parameters. -/
structure WorkerOptions where
  blk_size : Nat
  t_size : Nat
  timeout : Nat
  deriving DecidableEq

def MAX_RETRIES : Nat := 6

def DEFAULT_TIMEOUT_SECS : Nat := 5

def DEFAULT_BLOCK_SIZE : Nat := 512

/-- One socket receive outcome supplied by the environment: a decoded packet,
or a receive failure (timeout, oversized datagram, ...) carrying its display
text. -/
inductive RecvRes
  | ok (p : Packet)
  | err (msg : String)
  deriving DecidableEq

/-- Observable effects of the worker: packets sent on the socket and
filesystem effects. -/
inductive Event
  | sentData (block_num : Nat) (data : List Nat)
  | sentAck (block_num : Nat)
  | sentError (code : ErrorCode) (msg : String)
  | sentOAck (options : List TransferOption)
  | fileCreated
  | fileWrite (data : List Nat)
  deriving DecidableEq

/-- Terminal outcome of a worker run: normal completion, an error returned to
the handler closure, or a panic from an unwrap on a failed file operation.
none (in Option Outcome) models a run still blocked on the socket. -/
inductive Outcome
  | done
  | error (msg : String)
  | panicked
  deriving DecidableEq

/-- The loop body of parse_options in src/worker.rs: walks the option list in
order, threading the WorkerOptions accumulator; returns the list as mutated
in place (TransferSize entries overwritten with the file length when sending)
together with the result. A Timeout option with value 0 stops the walk with
an error, leaving the rest of the list unmutated. -/
def parse_options_go (wt : WorkType) : List TransferOption → WorkerOptions →
    List TransferOption × Except String WorkerOptions
  | [], acc => ([], Except.ok acc)
  | o :: rest, acc =>
    match o.option, wt with
    | OptionType.BlockSize, _ =>
      let r := parse_options_go wt rest (WorkerOptions.mk o.value acc.t_size acc.timeout)
      (o :: r.1, r.2)
    | OptionType.TransferSize, WorkType.Send size =>
      let r := parse_options_go wt rest acc
      (TransferOption.mk OptionType.TransferSize size :: r.1, r.2)
    | OptionType.TransferSize, WorkType.Receive =>
      let r := parse_options_go wt rest (WorkerOptions.mk acc.blk_size o.value acc.timeout)
      (o :: r.1, r.2)
    | OptionType.Timeout, _ =>
      if o.value = 0 then (o :: rest, Except.error "Invalid timeout value")
      else
        let r := parse_options_go wt rest (WorkerOptions.mk acc.blk_size acc.t_size o.value)
        (o :: r.1, r.2)

/-- parse_options from src/worker.rs: defaults blk_size 512, t_size 0,
timeout 5, then folds the requested options. -/
def parse_options (options : List TransferOption) (work_type : WorkType) :
    List TransferOption × Except String WorkerOptions :=
  parse_options_go work_type options
    (WorkerOptions.mk DEFAULT_BLOCK_SIZE 0 DEFAULT_TIMEOUT_SECS)

/-- The nested send loop of send_file in src/worker.rs. State: remaining file
bytes rem, current block_number (u16, kept < 65536), retry_cnt of the inner
loop. The chunk for the current block is rem.take blk_size (the file read).
Each iteration sends Data(block_number, chunk) and consumes one receive
outcome from the oracle: a matching Ack advances (wrapping mod 65536,
terminating when the chunk was short), an Error packet aborts with the peer
code and message, and anything else (receive failure or unexpected packet)
increments retry_cnt, aborting at MAX_RETRIES. Returns the event trace, the
unconsumed oracle, and the outcome (none when the oracle is exhausted while
the loop still waits). -/
def send_file_loop (blk_size : Nat) : List RecvRes → List Nat → Nat → Nat →
    List Event × List RecvRes × Option Outcome
  | [], rem, block_number, _ =>
    ([Event.sentData block_number (rem.take blk_size)], [], none)
  | RecvRes.ok (Packet.Ack rbn) :: rest, rem, block_number, retry_cnt =>
    if rbn = block_number then
      if (rem.take blk_size).length < blk_size then
        ([Event.sentData block_number (rem.take blk_size)], rest, some Outcome.done)
      else
        let r := send_file_loop blk_size rest (rem.drop blk_size)
          ((block_number + 1) % 65536) 0
        (Event.sentData block_number (rem.take blk_size) :: r.1, r.2.1, r.2.2)
    else
      let r := send_file_loop blk_size rest rem block_number retry_cnt
      (Event.sentData block_number (rem.take blk_size) :: r.1, r.2.1, r.2.2)
  | RecvRes.ok (Packet.Error code msg) :: rest, rem, block_number, _ =>
    ([Event.sentData block_number (rem.take blk_size)], rest,
      some (Outcome.error
        ("Received error code " ++ ErrorCode.display code ++ ", with message " ++ msg)))
  | _ :: rest, rem, block_number, retry_cnt =>
    if retry_cnt + 1 = MAX_RETRIES then
      ([Event.sentData block_number (rem.take blk_size)], rest,
        some (Outcome.error "Transfer timed out after 6 tries"))
    else
      let r := send_file_loop blk_size rest rem block_number (retry_cnt + 1)
      (Event.sentData block_number (rem.take blk_size) :: r.1, r.2.1, r.2.2)

/-- send_file from src/worker.rs, given the opened file contents: runs
parse_options (whose failure aborts before any data packet), then the send
loop from block number 1. Returns the mutated option list, the event trace
and the outcome. -/
def send_file (oracle : List RecvRes) (f : List Nat) (options : List TransferOption) :
    List TransferOption × List Event × Option Outcome :=
  match parse_options options (WorkType.Send f.length) with
  | (opts2, Except.error e) => (opts2, [], some (Outcome.error e))
  | (opts2, Except.ok w) =>
    let r := send_file_loop w.blk_size oracle f 1 0
    (opts2, r.1, r.2.2)

/-- The nested receive loop of receive_file in src/worker.rs. State: last
accepted block_number (u16, init 0), retry_cnt of the inner loop. Each
iteration consumes one receive outcome: a Data packet numbered exactly
block_number + 1 mod 65536 is accepted (written to the file, acknowledged,
terminating when shorter than blk_size), an Error packet aborts with the
peer code and message, a receive failure increments retry_cnt (aborting at
MAX_RETRIES), and any other packet, including Data with a mismatched block
number, is silently ignored. -/
def receive_file_loop (blk_size : Nat) : List RecvRes → Nat → Nat →
    List Event × List RecvRes × Option Outcome
  | [], _, _ => ([], [], none)
  | RecvRes.ok (Packet.Data rbn d) :: rest, block_number, retry_cnt =>
    if rbn = (block_number + 1) % 65536 then
      if d.length < blk_size then
        ([Event.fileWrite d, Event.sentAck rbn], rest, some Outcome.done)
      else
        let r := receive_file_loop blk_size rest rbn 0
        (Event.fileWrite d :: Event.sentAck rbn :: r.1, r.2.1, r.2.2)
    else
      receive_file_loop blk_size rest block_number retry_cnt
  | RecvRes.ok (Packet.Error code msg) :: rest, _, _ =>
    ([], rest,
      some (Outcome.error
        ("Received error code " ++ ErrorCode.display code ++ ": " ++ msg)))
  | RecvRes.err m :: rest, block_number, retry_cnt =>
    if retry_cnt + 1 = MAX_RETRIES then
      ([], rest, some (Outcome.error ("Transfer timed out after 6 tries: " ++ m)))
    else receive_file_loop blk_size rest block_number (retry_cnt + 1)
  | RecvRes.ok _ :: rest, block_number, retry_cnt =>
    receive_file_loop blk_size rest block_number retry_cnt

/-- receive_file from src/worker.rs. create_ok models whether File::create
succeeds; the source unwraps it, so failure panics. The file is created
(truncated) FIRST, then parse_options runs (whose failure aborts before any
packet of the loop), then the receive loop from block number 0. -/
def receive_file (oracle : List RecvRes) (create_ok : Bool)
    (options : List TransferOption) :
    List TransferOption × List Event × Option Outcome :=
  if create_ok then
    match parse_options options WorkType.Receive with
    | (opts2, Except.error e) => (opts2, [Event.fileCreated], some (Outcome.error e))
    | (opts2, Except.ok w) =>
      let r := receive_file_loop w.blk_size oracle 0 0
      (opts2, Event.fileCreated :: r.1, r.2.2)
  else (options, [], some Outcome.panicked)

/-- accept_request from src/worker.rs: with a non-empty option list, send an
OAck carrying the options AS CURRENTLY HELD (it runs before parse_options);
otherwise, when receiving, send Ack 0; otherwise nothing. -/
def accept_request (options : List TransferOption) (work_type : WorkType) :
    List Event :=
  if 0 < options.length then [Event.sentOAck options]
  else if work_type = WorkType.Receive then [Event.sentAck 0]
  else []

/-- check_response from src/worker.rs: one receive. A receive failure
propagates as an error; an Ack with nonzero block number sends
Error(IllegalOperation, invalid oack response) to the peer BUT STILL RETURNS
Ok; every other packet is ignored and also returns Ok. none models a blocked
receive with no oracle entry left. -/
def check_response : List RecvRes →
    Option (List Event × List RecvRes × Except String Unit)
  | [] => none
  | RecvRes.err m :: rest => some ([], rest, Except.error m)
  | RecvRes.ok (Packet.Ack rbn) :: rest =>
    some ((if rbn = 0 then []
      else [Event.sentError ErrorCode.IllegalOperation "invalid oack response"]),
      rest, Except.ok ())
  | RecvRes.ok _ :: rest => some ([], rest, Except.ok ())

/-- The body of Worker::send from src/worker.rs. file is none when the
metadata/open unwrap fails (panic). Order: accept_request (OAck from the
original, unparsed option list), check_response, send_file. -/
def worker_send (oracle : List RecvRes) (file : Option (List Nat))
    (options : List TransferOption) : List Event × Option Outcome :=
  match file with
  | none => ([], some Outcome.panicked)
  | some f =>
    let hs := accept_request options (WorkType.Send f.length)
    match check_response oracle with
    | none => (hs, none)
    | some (evs, _, Except.error m) => (hs ++ evs, some (Outcome.error m))
    | some (evs, rest, Except.ok _) =>
      let r := send_file rest f options
      (hs ++ evs ++ r.2.1, r.2.2)

/-- The body of Worker::receive from src/worker.rs: accept_request then
receive_file (no check_response on the receive side). -/
def worker_receive (oracle : List RecvRes) (create_ok : Bool)
    (options : List TransferOption) : List Event × Option Outcome :=
  let hs := accept_request options WorkType.Receive
  let r := receive_file oracle create_ok options
  (hs ++ r.2.1, r.2.2)

/-- Length of the payload of a data-packet event (0 for any other event). -/
def dataLen : Event → Nat
  | Event.sentData _ d => d.length
  | _ => 0

/-- A cooperative response oracle: n correct acknowledgments starting at
block number bn, advancing mod 65536. -/
def coopAcks : Nat → Nat → List RecvRes
  | _, 0 => []
  | bn, n + 1 => RecvRes.ok (Packet.Ack bn) :: coopAcks ((bn + 1) % 65536) n

/-- Walking the option list hits the first Timeout option with value 0 and
fails with the invalid-option error, for any accumulator. -/
theorem parse_options_go_timeout_zero (wt : WorkType) (opts : List TransferOption) :
    ∀ acc : WorkerOptions,
      TransferOption.mk OptionType.Timeout 0 ∈ opts →
      (parse_options_go wt opts acc).2 = Except.error "Invalid timeout value" := by
  induction opts with
  | nil => intro acc h; exact absurd h (List.not_mem_nil _)
  | cons o rest ih =>
    intro acc h
    obtain ⟨oo, ov⟩ := o
    rcases List.mem_cons.mp h with h0 | hmem
    · cases h0
      simp [parse_options_go]
    · cases oo with
      | BlockSize => simpa [parse_options_go] using ih _ hmem
      | TransferSize => cases wt <;> simpa [parse_options_go] using ih _ hmem
      | Timeout =>
        by_cases hov : ov = 0
        · subst hov; simp [parse_options_go]
        · simpa [parse_options_go, hov] using ih _ hmem

/-- parse_options fails with the invalid-option error whenever the requested
list contains a Timeout option with value 0. -/
theorem parse_options_timeout_zero (opts : List TransferOption) (wt : WorkType)
    (h : TransferOption.mk OptionType.Timeout 0 ∈ opts) :
    (parse_options opts wt).2 = Except.error "Invalid timeout value" :=
  parse_options_go_timeout_zero wt opts _ h

/-- When sending, parse_options rewrites every TransferSize entry of the
option list to the local file length and leaves every other entry unchanged
(provided the walk is not cut short by a zero Timeout). -/
theorem parse_options_go_send_subst (L : Nat) (opts : List TransferOption) :
    ∀ acc : WorkerOptions,
      TransferOption.mk OptionType.Timeout 0 ∉ opts →
      (parse_options_go (WorkType.Send L) opts acc).1 =
        opts.map (fun o =>
          if o.option = OptionType.TransferSize
          then TransferOption.mk OptionType.TransferSize L else o) := by
  induction opts with
  | nil => intro acc _; rfl
  | cons o rest ih =>
    intro acc h
    have hmem : TransferOption.mk OptionType.Timeout 0 ∉ rest := by
      intro hr; exact h (List.mem_cons_of_mem _ hr)
    obtain ⟨oo, ov⟩ := o
    cases oo with
    | BlockSize => simpa [parse_options_go] using ih _ hmem
    | TransferSize => simpa [parse_options_go] using ih _ hmem
    | Timeout =>
      have hov : ov ≠ 0 := by
        intro hv; subst hv; exact h (List.mem_cons_self _ _)
      simpa [parse_options_go, hov] using ih _ hmem

/-- A send transfer whose option list contains a Timeout option with value 0
aborts in parse_options, before any data packet of the loop is sent. -/
theorem send_file_timeout_zero (oracle : List RecvRes) (f : List Nat)
    (opts : List TransferOption)
    (h : TransferOption.mk OptionType.Timeout 0 ∈ opts) :
    (send_file oracle f opts).2 = ([], some (Outcome.error "Invalid timeout value")) := by
  have h2 := parse_options_timeout_zero opts (WorkType.Send f.length) h
  unfold send_file
  rcases hp : parse_options opts (WorkType.Send f.length) with ⟨opts2, res⟩
  rw [hp] at h2
  simp only at h2
  subst h2
  rfl

/-- A receive transfer whose option list contains a Timeout option with value
0 creates the destination file and then aborts in parse_options. -/
theorem receive_file_timeout_zero (oracle : List RecvRes)
    (opts : List TransferOption)
    (h : TransferOption.mk OptionType.Timeout 0 ∈ opts) :
    (receive_file oracle true opts).2 =
      ([Event.fileCreated], some (Outcome.error "Invalid timeout value")) := by
  have h2 := parse_options_timeout_zero opts WorkType.Receive h
  unfold receive_file
  rcases hp : parse_options opts WorkType.Receive with ⟨opts2, res⟩
  rw [hp] at h2
  simp only at h2
  subst h2
  rfl

/-- Whatever the oracle holds, the first event of the send loop is the data
packet for the current block. -/
theorem send_file_loop_head (blk_size : Nat) (oracle : List RecvRes)
    (rem : List Nat) (bn cnt : Nat) :
    (send_file_loop blk_size oracle rem bn cnt).1.head? =
      some (Event.sentData bn (rem.take blk_size)) := by
  cases oracle with
  | nil => rfl
  | cons r rest =>
    rcases r with p | m
    · rcases p with ⟨rbn, d⟩ | rbn | ⟨c, m⟩ | os <;>
        simp only [send_file_loop] <;>
        (try split) <;> (try split) <;> simp
    · simp only [send_file_loop]
      split <;> simp

/-- With a non-empty option list, the first event of a (non-panicking) send
worker run is the OptionAck carrying the option list exactly as passed in. -/
theorem worker_send_oack_head (oracle : List RecvRes) (f : List Nat)
    (opts : List TransferOption) (h : opts ≠ []) :
    (worker_send oracle (some f) opts).1.head? = some (Event.sentOAck opts) := by
  have hlen : 0 < opts.length := List.length_pos.mpr h
  cases hc : check_response oracle with
  | none => simp [worker_send, accept_request, hc, hlen]
  | some t =>
    obtain ⟨evs, rest, res⟩ := t
    cases res <;> simp [worker_send, accept_request, hc, hlen]

/-- Claim C1, counterexample: a send transfer requesting TransferSize 0 for a
local file of 3 bytes emits, as its first handshake event, an OptionAck still
carrying TransferSize 0 — not the true file length 3. The peer is told the
requested placeholder, refuting the claim at this concrete input. -/
theorem C1_counterexample :
    (worker_send [RecvRes.ok (Packet.Ack 0)] (some [1, 2, 3])
        [TransferOption.mk OptionType.TransferSize 0]).1.head? =
      some (Event.sentOAck [TransferOption.mk OptionType.TransferSize 0]) ∧
    (some [1, 2, 3] : Option (List Nat)).map List.length = some 3 ∧ (0 : Nat) ≠ 3 :=
  ⟨rfl, rfl, by decide⟩

/-- Claim C1 (amended): for every send transfer whose requested option list
contains a TransferSize option, the OptionAck emitted during the handshake
carries the option list exactly as requested (the placeholder value); the
substitution of the true local file length happens only afterwards, when
parse_options rewrites every TransferSize entry of the list inside send_file
— after the OptionAck is already on the wire. -/
theorem C1_oack_requested_size_substituted_later (oracle : List RecvRes)
    (f : List Nat) (opts : List TransferOption) (v : Nat)
    (hmem : TransferOption.mk OptionType.TransferSize v ∈ opts)
    (hto : TransferOption.mk OptionType.Timeout 0 ∉ opts) :
    (worker_send oracle (some f) opts).1.head? = some (Event.sentOAck opts) ∧
    (parse_options opts (WorkType.Send f.length)).1 =
      opts.map (fun o =>
        if o.option = OptionType.TransferSize
        then TransferOption.mk OptionType.TransferSize f.length else o) :=
  ⟨worker_send_oack_head oracle f opts (List.ne_nil_of_mem hmem),
    parse_options_go_send_subst f.length opts _ hto⟩

/-- Claim C1 witness: the amended statement at a concrete input. -/
theorem C1_witness :
    (worker_send [] (some [1, 2]) [TransferOption.mk OptionType.TransferSize 42]).1.head? =
      some (Event.sentOAck [TransferOption.mk OptionType.TransferSize 42]) ∧
    (parse_options [TransferOption.mk OptionType.TransferSize 42] (WorkType.Send 2)).1 =
      [TransferOption.mk OptionType.TransferSize 42].map (fun o =>
        if o.option = OptionType.TransferSize
        then TransferOption.mk OptionType.TransferSize 2 else o) := by
  have h := C1_oack_requested_size_substituted_later [] [1, 2]
    [TransferOption.mk OptionType.TransferSize 42] 42 (by decide) (by decide)
  simpa using h

/-- Claim C2, counterexample: with the requested options holding a Timeout
option of value 0, both the send worker and the receive worker emit an
OptionAck packet before parse_options rejects the transfer: the negotiation
failure occurs, but network traffic has already been produced. -/
theorem C2_counterexample :
    worker_send [RecvRes.ok (Packet.Ack 0)] (some [])
        [TransferOption.mk OptionType.Timeout 0] =
      ([Event.sentOAck [TransferOption.mk OptionType.Timeout 0]],
        some (Outcome.error "Invalid timeout value")) ∧
    worker_receive [] true [TransferOption.mk OptionType.Timeout 0] =
      ([Event.sentOAck [TransferOption.mk OptionType.Timeout 0], Event.fileCreated],
        some (Outcome.error "Invalid timeout value")) ∧
    [Event.sentOAck [TransferOption.mk OptionType.Timeout 0]] ≠ ([] : List Event) :=
  ⟨rfl, rfl, by simp⟩

/-- Claim C2 (amended): a Timeout option with value 0 does make parse_options
fail with the invalid-option error, and no data packet is ever sent or
acknowledged; but the failure does not precede all network traffic — the
handshake OptionAck (emitted by accept_request before option parsing runs)
has already been sent by both the send and the receive worker. -/
theorem C2_timeout_zero_rejected_after_oack (rest : List RecvRes) (f : List Nat)
    (opts : List TransferOption)
    (h : TransferOption.mk OptionType.Timeout 0 ∈ opts) :
    worker_send (RecvRes.ok (Packet.Ack 0) :: rest) (some f) opts =
      ([Event.sentOAck opts], some (Outcome.error "Invalid timeout value")) ∧
    worker_receive rest true opts =
      ([Event.sentOAck opts, Event.fileCreated],
        some (Outcome.error "Invalid timeout value")) := by
  have hlen : 0 < opts.length := List.length_pos.mpr (List.ne_nil_of_mem h)
  have hsf := send_file_timeout_zero rest f opts h
  have hrf := receive_file_timeout_zero rest opts h
  constructor
  · simp [worker_send, check_response, accept_request, hlen, hsf]
  · simp [worker_receive, accept_request, hlen, hrf]

/-- Claim C2 witness: the amended statement at a concrete input. -/
theorem C2_witness :
    worker_send [RecvRes.ok (Packet.Ack 0)] (some [3])
        [TransferOption.mk OptionType.BlockSize 8, TransferOption.mk OptionType.Timeout 0] =
      ([Event.sentOAck [TransferOption.mk OptionType.BlockSize 8,
          TransferOption.mk OptionType.Timeout 0]],
        some (Outcome.error "Invalid timeout value")) ∧
    worker_receive [] true
        [TransferOption.mk OptionType.BlockSize 8, TransferOption.mk OptionType.Timeout 0] =
      ([Event.sentOAck [TransferOption.mk OptionType.BlockSize 8,
          TransferOption.mk OptionType.Timeout 0], Event.fileCreated],
        some (Outcome.error "Invalid timeout value")) :=
  C2_timeout_zero_rejected_after_oack [] [3]
    [TransferOption.mk OptionType.BlockSize 8, TransferOption.mk OptionType.Timeout 0]
    (by decide)

/-- Claim C3, evaluation at the failing input: when the handshake response is
Ack(7), the sender does send Error(IllegalOperation, invalid oack response) —
but check_response still returns Ok, so send_file IS entered and the data
transfer proceeds to completion: the worker does not abort. This contradicts
the claim that send_file is never entered. -/
theorem C3_evaluation :
    worker_send [RecvRes.ok (Packet.Ack 7), RecvRes.ok (Packet.Ack 1)] (some [9]) [] =
      ([Event.sentError ErrorCode.IllegalOperation "invalid oack response",
        Event.sentData 1 [9]], some Outcome.done) ∧
    Event.sentData 1 [9] ∈
      (worker_send [RecvRes.ok (Packet.Ack 7), RecvRes.ok (Packet.Ack 1)]
        (some [9]) []).1 :=
  ⟨rfl, by decide⟩

/-- Claim C4, counterexample: mismatched block numbers do NOT count as failed
attempts. Seven consecutive mismatched Acks (send side) and seven consecutive
mismatched Data packets (receive side) — more than MAX_RETRIES — do not abort
the transfer with a timeout error: an eighth, matching response still
completes it, and on the send side all eight attempts resent the block. -/
theorem C4_counterexample :
    send_file_loop 512
        (List.replicate 7 (RecvRes.ok (Packet.Ack 5)) ++ [RecvRes.ok (Packet.Ack 1)])
        [9] 1 0 =
      (List.replicate 8 (Event.sentData 1 [9]), [], some Outcome.done) ∧
    receive_file_loop 512
        (List.replicate 7 (RecvRes.ok (Packet.Data 9 [3])) ++ [RecvRes.ok (Packet.Data 1 [3])])
        0 0 =
      ([Event.fileWrite [3], Event.sentAck 1], [], some Outcome.done) :=
  ⟨by decide, by decide⟩

/-- Claim C4 (amended): a mismatched sequence number does not increment the
attempt counter in either loop. In the send loop a mismatched Ack leaves
retry_cnt unchanged and merely resends the same block; in the receive loop a
Data packet whose block number is not the expected successor is ignored
outright, leaving both the state and retry_cnt unchanged. Only the catch-all
outcomes (receive failure, or in the send loop any non-Ack non-Error packet)
increment the counter. -/
theorem C4_mismatch_not_counted (blk_size : Nat) (rest : List RecvRes)
    (rem : List Nat) (bn cnt rbn rbn2 : Nat) (d : List Nat)
    (hs : rbn ≠ bn) (hr : rbn2 ≠ (bn + 1) % 65536) :
    send_file_loop blk_size (RecvRes.ok (Packet.Ack rbn) :: rest) rem bn cnt =
      (Event.sentData bn (rem.take blk_size) ::
          (send_file_loop blk_size rest rem bn cnt).1,
        (send_file_loop blk_size rest rem bn cnt).2.1,
        (send_file_loop blk_size rest rem bn cnt).2.2) ∧
    receive_file_loop blk_size (RecvRes.ok (Packet.Data rbn2 d) :: rest) bn cnt =
      receive_file_loop blk_size rest bn cnt := by
  constructor
  · simp [send_file_loop, hs]
  · simp [receive_file_loop, hr]

/-- Claim C4 witness: the amended statement at a concrete input. -/
theorem C4_witness :
    send_file_loop 512 [RecvRes.ok (Packet.Ack 5)] [9] 1 0 =
      (Event.sentData 1 [9] :: (send_file_loop 512 [] [9] 1 0).1,
        (send_file_loop 512 [] [9] 1 0).2.1,
        (send_file_loop 512 [] [9] 1 0).2.2) ∧
    receive_file_loop 512 [RecvRes.ok (Packet.Data 9 [3])] 1 0 =
      receive_file_loop 512 [] 1 0 :=
  C4_mismatch_not_counted 512 [] [9] 1 0 5 9 [3] (by decide) (by decide)

/-- Claim C5: a socket that never responds (six consecutive receive failures)
causes exactly six send attempts of the affected block in the send loop (six
data packets, no seventh), and exactly six receive attempts in the receive
loop (six oracle entries consumed, no seventh — whatever follows in the
oracle is left untouched), after which the transfer aborts with an error
naming the attempt count. Holds from any block and any remaining file. -/
theorem C5_retry_bound (blk_size : Nat) (rest : List RecvRes) (rem : List Nat)
    (bn : Nat) (m m2 : String) :
    send_file_loop blk_size (List.replicate 6 (RecvRes.err m) ++ rest) rem bn 0 =
      (List.replicate 6 (Event.sentData bn (rem.take blk_size)), rest,
        some (Outcome.error "Transfer timed out after 6 tries")) ∧
    receive_file_loop blk_size (List.replicate 6 (RecvRes.err m2) ++ rest) bn 0 =
      ([], rest, some (Outcome.error ("Transfer timed out after 6 tries: " ++ m2))) := by
  constructor <;>
    simp [send_file_loop, receive_file_loop, List.replicate, MAX_RETRIES]

/-- One accepted full-size block of the send loop: on a matching Ack with a
chunk of full block size, the loop records the data packet and continues on
the rest of the file with the successor block number (mod 65536) and a reset
retry counter. -/
theorem send_file_loop_step_full (blk_size : Nat) (rest : List RecvRes)
    (rem : List Nat) (bn cnt : Nat)
    (h : ¬ (rem.take blk_size).length < blk_size) :
    send_file_loop blk_size (RecvRes.ok (Packet.Ack bn) :: rest) rem bn cnt =
      (Event.sentData bn (rem.take blk_size) ::
          (send_file_loop blk_size rest (rem.drop blk_size) ((bn + 1) % 65536) 0).1,
        (send_file_loop blk_size rest (rem.drop blk_size) ((bn + 1) % 65536) 0).2.1,
        (send_file_loop blk_size rest (rem.drop blk_size) ((bn + 1) % 65536) 0).2.2) := by
  rw [send_file_loop, if_pos rfl, if_neg h]

/-- Block framing of the send loop, auxiliary induction on a length bound:
with a cooperative peer (every block acknowledged on the first attempt), the
loop emits floor(length / blk_size) full-size payloads followed by exactly
one final payload of length (length mod blk_size), consumes the whole oracle
and completes. -/
theorem send_framing_aux (blk_size : Nat) (hB : 0 < blk_size) :
    ∀ (N : Nat) (f : List Nat) (bn : Nat), f.length ≤ N →
      ((send_file_loop blk_size (coopAcks bn (f.length / blk_size + 1)) f bn 0).1.map dataLen
          = List.replicate (f.length / blk_size) blk_size ++ [f.length % blk_size]) ∧
      (send_file_loop blk_size (coopAcks bn (f.length / blk_size + 1)) f bn 0).2.1 = [] ∧
      (send_file_loop blk_size (coopAcks bn (f.length / blk_size + 1)) f bn 0).2.2
          = some Outcome.done := by
  intro N
  induction N with
  | zero =>
    intro f bn hlen
    have hf : f = [] := List.eq_nil_of_length_eq_zero (Nat.le_zero.mp hlen)
    subst hf
    simp [coopAcks, send_file_loop, hB, dataLen]
  | succ N ih =>
    intro f bn hlen
    by_cases hfb : f.length < blk_size
    · have hdiv : f.length / blk_size = 0 := Nat.div_eq_of_lt hfb
      have hmod : f.length % blk_size = f.length := Nat.mod_eq_of_lt hfb
      have htake : f.take blk_size = f := List.take_of_length_le (Nat.le_of_lt hfb)
      rw [hdiv, hmod]
      simp [coopAcks, send_file_loop, htake, hfb, dataLen]
    · push_neg at hfb
      obtain ⟨c, hc⟩ : ∃ c, f.length = blk_size + c := ⟨f.length - blk_size, by omega⟩
      have hdiv : f.length / blk_size = c / blk_size + 1 := by
        rw [hc, Nat.add_comm, Nat.add_div_right _ hB]
      have hmod : f.length % blk_size = c % blk_size := by
        rw [hc, Nat.add_comm, Nat.add_mod_right]
      have hdroplen : (f.drop blk_size).length = c := by
        simp [List.length_drop, hc]
      have htakelen : (f.take blk_size).length = blk_size := by
        simp [List.length_take]
        omega
      have hih := ih (f.drop blk_size) ((bn + 1) % 65536) (by omega)
      rw [hdroplen] at hih
      obtain ⟨ih1, ih2, ih3⟩ := hih
      have hcoop : coopAcks bn (f.length / blk_size + 1) =
          RecvRes.ok (Packet.Ack bn) :: coopAcks ((bn + 1) % 65536) (c / blk_size + 1) := by
        rw [hdiv]
        rfl
      have hnotlt : ¬ (f.take blk_size).length < blk_size := by
        rw [htakelen]; exact Nat.lt_irrefl _
      rw [hcoop, send_file_loop_step_full blk_size _ f bn 0 hnotlt]
      refine ⟨?_, ?_, ?_⟩
      · simp only [List.map_cons, ih1, dataLen, htakelen, hdiv, hmod,
          List.replicate_succ, List.cons_append]
      · exact ih2
      · exact ih3

/-- Claim C6, counterexample: sending the 3-byte file with block size 2
(every block acknowledged on the first attempt) emits payloads of lengths
[2, 1] and completes — one full-size block, not ceil(3/2) = 2 of them: the
claimed shape ceil(L/B) full blocks plus a final (L mod B) block, which here
predicts [2, 2, 1], is refuted. -/
theorem C6_counterexample :
    ((send_file_loop 2 [RecvRes.ok (Packet.Ack 1), RecvRes.ok (Packet.Ack 2)]
        [1, 2, 3] 1 0).1.map dataLen = [2, 1]) ∧
    (send_file_loop 2 [RecvRes.ok (Packet.Ack 1), RecvRes.ok (Packet.Ack 2)]
        [1, 2, 3] 1 0).2.2 = some Outcome.done ∧
    [2, 1] ≠ List.replicate ((3 + 2 - 1) / 2) 2 ++ [3 % 2] :=
  ⟨rfl, rfl, by decide⟩

/-- Claim C6 (amended): for every file of length L and block size B > 0, the
send loop with every block acknowledged on the first attempt emits
floor(L/B) full-size data blocks followed by exactly one final block of
length L mod B (length 0 when B divides L, including L = 0), consumes
exactly those acknowledgments and then stops: the transfer terminates
exactly when the one block shorter than B is sent. -/
theorem C6_block_framing (blk_size : Nat) (f : List Nat) (bn : Nat)
    (hB : 0 < blk_size) :
    ((send_file_loop blk_size (coopAcks bn (f.length / blk_size + 1)) f bn 0).1.map dataLen
        = List.replicate (f.length / blk_size) blk_size ++ [f.length % blk_size]) ∧
    (send_file_loop blk_size (coopAcks bn (f.length / blk_size + 1)) f bn 0).2.1 = [] ∧
    (send_file_loop blk_size (coopAcks bn (f.length / blk_size + 1)) f bn 0).2.2
        = some Outcome.done :=
  send_framing_aux blk_size hB f.length f bn le_rfl

/-- Claim C6 witness: the amended statement at a concrete input. -/
theorem C6_witness :
    ((send_file_loop 2 (coopAcks 1 (([1, 2, 3] : List Nat).length / 2 + 1)) [1, 2, 3] 1 0).1.map
        dataLen = [2, 1]) ∧
    (send_file_loop 2 (coopAcks 1 (([1, 2, 3] : List Nat).length / 2 + 1)) [1, 2, 3] 1 0).2.2
        = some Outcome.done := by
  have h := C6_block_framing 2 [1, 2, 3] 1 (by decide)
  exact ⟨by simpa using h.1, h.2.2⟩

/-- Claim C7, evaluation at the failing input: when the local file cannot be
opened for a send (the metadata/open unwrap fails) or the destination cannot
be created for a receive, the worker panics — the failure never reaches the
error-reporting channel that receives every other transfer error. The
receive side has even already sent its handshake acknowledgment. -/
theorem C7_evaluation :
    worker_send [] none [] = ([], some Outcome.panicked) ∧
    worker_receive [] false [] = ([Event.sentAck 0], some Outcome.panicked) :=
  ⟨rfl, rfl⟩

/-- Claim C8: block numbers advance modulo 65536. A sender at block 65535
that receives the matching Ack sends block 0 next (first event is the data
packet for 65535, second the data packet numbered 0); a receiver whose last
accepted block was 65535 accepts a Data packet numbered 0 as the valid
successor, writes it and acknowledges 0. -/
theorem C8_wraparound (blk_size : Nat) (rest : List RecvRes) (f d : List Nat)
    (cnt : Nat) (hf : blk_size ≤ f.length) (hd : d.length < blk_size) :
    ((send_file_loop blk_size (RecvRes.ok (Packet.Ack 65535) :: rest) f 65535 cnt).1.head? =
        some (Event.sentData 65535 (f.take blk_size))) ∧
    ((send_file_loop blk_size (RecvRes.ok (Packet.Ack 65535) :: rest) f 65535 cnt).1.tail.head? =
        some (Event.sentData 0 ((f.drop blk_size).take blk_size))) ∧
    receive_file_loop blk_size (RecvRes.ok (Packet.Data 0 d) :: rest) 65535 cnt =
      ([Event.fileWrite d, Event.sentAck 0], rest, some Outcome.done) := by
  have hnotlt : ¬ (f.take blk_size).length < blk_size := by
    simp [List.length_take]
    omega
  have hstep := send_file_loop_step_full blk_size rest f 65535 cnt hnotlt
  have hmod : (65535 + 1) % 65536 = 0 := by decide
  rw [hmod] at hstep
  refine ⟨?_, ?_, ?_⟩
  · rw [hstep]; rfl
  · rw [hstep]
    exact send_file_loop_head blk_size rest (f.drop blk_size) 0 0
  · rw [receive_file_loop, hmod, if_pos rfl, if_pos hd]

/-- Claim C8 witness: the statement at a concrete input. -/
theorem C8_witness :
    ((send_file_loop 1 (RecvRes.ok (Packet.Ack 65535) :: []) [5, 6] 65535 0).1.head? =
        some (Event.sentData 65535 ([5, 6].take 1))) ∧
    ((send_file_loop 1 (RecvRes.ok (Packet.Ack 65535) :: []) [5, 6] 65535 0).1.tail.head? =
        some (Event.sentData 0 (([5, 6].drop 1).take 1))) ∧
    receive_file_loop 1 (RecvRes.ok (Packet.Data 0 []) :: []) 65535 0 =
      ([Event.fileWrite [], Event.sentAck 0], [], some Outcome.done) :=
  C8_wraparound 1 [] [5, 6] [] 0 (by decide) (by decide)

/-- Claim C9: in both loops, an Error packet from the peer aborts the
transfer at once, from any state (any retry count, any block): no further
receive attempt is made (the rest of the oracle is untouched), no packet
beyond the already-sent data attempt goes out, and the resulting error
message embeds both the peer error code and its error text. -/
theorem C9_peer_error_aborts (blk_size : Nat) (rest : List RecvRes)
    (rem : List Nat) (bn cnt : Nat) (code : ErrorCode) (msg : String) :
    send_file_loop blk_size (RecvRes.ok (Packet.Error code msg) :: rest) rem bn cnt =
      ([Event.sentData bn (rem.take blk_size)], rest,
        some (Outcome.error
          ("Received error code " ++ ErrorCode.display code ++ ", with message " ++ msg))) ∧
    receive_file_loop blk_size (RecvRes.ok (Packet.Error code msg) :: rest) bn cnt =
      ([], rest,
        some (Outcome.error
          ("Received error code " ++ ErrorCode.display code ++ ": " ++ msg))) :=
  ⟨rfl, rfl⟩

/-- Claim C10: a receive transfer whose options contain a Timeout option with
value 0 creates (truncates) the destination file FIRST and only then fails
option parsing: the worker run ends in the invalid-option error with the
file-creation effect already performed and nothing ever written to the file,
leaving a fresh empty destination file behind. -/
theorem C10_create_precedes_rejection (oracle : List RecvRes)
    (opts : List TransferOption)
    (h : TransferOption.mk OptionType.Timeout 0 ∈ opts) :
    worker_receive oracle true opts =
      ([Event.sentOAck opts, Event.fileCreated],
        some (Outcome.error "Invalid timeout value")) ∧
    Event.fileCreated ∈ (worker_receive oracle true opts).1 ∧
    (∀ d, Event.fileWrite d ∉ (worker_receive oracle true opts).1) := by
  have hlen : 0 < opts.length := List.length_pos.mpr (List.ne_nil_of_mem h)
  have hrf := receive_file_timeout_zero oracle opts h
  have hmain : worker_receive oracle true opts =
      ([Event.sentOAck opts, Event.fileCreated],
        some (Outcome.error "Invalid timeout value")) := by
    simp [worker_receive, accept_request, hlen, hrf]
  refine ⟨hmain, ?_, ?_⟩
  · rw [hmain]; simp
  · intro d
    rw [hmain]
    simp

/-- Claim C10 witness: the statement at a concrete input. -/
theorem C10_witness :
    worker_receive [] true [TransferOption.mk OptionType.Timeout 0] =
      ([Event.sentOAck [TransferOption.mk OptionType.Timeout 0], Event.fileCreated],
        some (Outcome.error "Invalid timeout value")) ∧
    Event.fileCreated ∈
      (worker_receive [] true [TransferOption.mk OptionType.Timeout 0]).1 :=
  ⟨(C10_create_precedes_rejection [] [TransferOption.mk OptionType.Timeout 0] (by decide)).1,
    (C10_create_precedes_rejection [] [TransferOption.mk OptionType.Timeout 0] (by decide)).2.1⟩
